import Mathlib

/-!
Verification of the auto-healer core (apps/auto-healer/healer.py and
apps/auto-healer/main.py): per-pod restart counting, unhealthy-pod
classification, Pod → ReplicaSet → Deployment ownership resolution,
dry-run-gated remediation, per-pod failure isolation in a healing cycle,
and the independent namespace health summary.

The Kubernetes API is modelled as explicit inputs: every `read`/`list`
call a function makes is an `Except String _` argument (`.error` models
an `ApiException` raised by the client), and every mutating `patch` call
the code issues is recorded in an explicit effects record together with
the metrics-counter increments.  Python truthiness checks on optional
lists (`if not pod.status.container_statuses`) and optional ints
(`if deployment.status.ready_replicas and ...`) are modelled by explicit
truthiness functions on `Option`.
-/

/-- One entry of `pod.status.container_statuses`, with the fields the
auto-healer reads. -/
structure ContainerStatus where
  name : String
  ready : Bool
  restart_count : Nat
  image : String
  last_termination_time : Option String
deriving DecidableEq, Repr

/-- Python truthiness of an optional list: `None` and `[]` are falsy. -/
def pyTruthyList {α : Type} : Option (List α) → Bool
  | none => false
  | some l => !l.isEmpty

/-- Python truthiness of an optional integer: `None` and `0` are falsy. -/
def pyTruthyOptNat : Option Nat → Bool
  | none => false
  | some n => decide (n ≠ 0)

/-- The part of a pod object read by `PodRestartHealer.get_pod_restart_count`:
`pod.status.container_statuses`, which may be absent (`None`). -/
structure PodStatusView where
  container_statuses : Option (List ContainerStatus)
deriving DecidableEq, Repr

/-- The running-maximum loop of `get_pod_restart_count` (healer.py lines
24-29): start at 0, replace the accumulator whenever a container has a
strictly larger `restart_count`. -/
def maxRestartsLoop (cs : List ContainerStatus) : Nat :=
  cs.foldl (fun m c => if c.restart_count > m then c.restart_count else m) 0

/-- `PodRestartHealer.get_pod_restart_count` (healer.py lines 16-33).
The argument is the result of the `read_namespaced_pod` call: `.error`
models an `ApiException`, which the code catches, logs and converts to 0.
A falsy (absent or empty) container-status list also yields 0. -/
def get_pod_restart_count (readResult : Except String PodStatusView) : Nat :=
  match readResult with
  | .error _ => 0
  | .ok pod =>
      if pyTruthyList pod.container_statuses then
        maxRestartsLoop (pod.container_statuses.getD [])
      else 0

/-- `PodRestartHealer.is_pod_unhealthy` (healer.py lines 35-38):
`restart_count >= self.restart_threshold`. -/
def is_pod_unhealthy (readResult : Except String PodStatusView)
    (restart_threshold : Nat) : Bool :=
  decide (restart_threshold ≤ get_pod_restart_count readResult)

theorem maxRestartsLoop_eq_foldl_max (cs : List ContainerStatus) :
    maxRestartsLoop cs = (cs.map (fun c => c.restart_count)).foldl max 0 := by
  have h : ∀ (l : List ContainerStatus) (a : Nat),
      l.foldl (fun m c => if c.restart_count > m then c.restart_count else m) a =
        (l.map (fun c => c.restart_count)).foldl max a := by
    intro l
    induction l with
    | nil => intro a; rfl
    | cons c l ih =>
        intro a
        simp only [List.foldl_cons, List.map_cons]
        rw [ih]
        congr 1
        rw [max_def]
        split <;> split <;> omega
  exact h cs 0

theorem foldl_max_is_max (l : List Nat) :
    (∀ x ∈ l, x ≤ l.foldl max 0) ∧
      (l.foldl max 0 = 0 ∨ l.foldl max 0 ∈ l) := by
  have key : ∀ (l : List Nat) (a : Nat),
      a ≤ l.foldl max a ∧ (∀ x ∈ l, x ≤ l.foldl max a) ∧
        (l.foldl max a = a ∨ l.foldl max a ∈ l) := by
    intro l
    induction l with
    | nil => intro a; exact ⟨Nat.le_refl a, by simp, Or.inl rfl⟩
    | cons x l ih =>
        intro a
        obtain ⟨h1, h2, h3⟩ := ih (max a x)
        refine ⟨le_trans (le_max_left a x) h1, ?_, ?_⟩
        · intro y hy
          rcases List.mem_cons.mp hy with rfl | hy
          · exact le_trans (le_max_right a y) h1
          · exact h2 y hy
        · rcases h3 with h3 | h3
          · rw [List.foldl_cons, h3]
            cases max_choice a x with
            | inl h => left; exact h
            | inr h => right; rw [h]; exact List.mem_cons_self x l
          · right; exact List.mem_cons_of_mem x h3
  obtain ⟨_, h2, h3⟩ := key l 0
  exact ⟨h2, h3⟩

/-! ## Main service (main.py): scan, ownership resolution, remediation -/

/-- The part of a pod read by `AutoHealerService.get_unhealthy_pods`
(main.py lines 61-73). -/
structure ScanPod where
  name : String
  container_statuses : Option (List ContainerStatus)
deriving DecidableEq, Repr

/-- The dictionary appended for each container whose restart count meets
the threshold (main.py lines 65-73).  `ns` models the `namespace` key. -/
structure HealRecord where
  name : String
  ns : String
  restart_count : Nat
  container : String
  image : String
  ready : Bool
  last_restart : Option String
deriving DecidableEq, Repr

/-- The inner container loop of `get_unhealthy_pods` (main.py lines
62-73): one record is appended per container whose `restart_count`
meets the threshold; the loop body runs only when the container-status
list is truthy. -/
def podUnhealthyRecords (thr : Nat) (ns : String) (pod : ScanPod) :
    List HealRecord :=
  if pyTruthyList pod.container_statuses then
    (pod.container_statuses.getD []).filterMap (fun c =>
      if thr ≤ c.restart_count then
        some ⟨pod.name, ns, c.restart_count, c.name, c.image, c.ready,
          c.last_termination_time⟩
      else none)
  else []

/-- `AutoHealerService.get_unhealthy_pods` (main.py lines 49-83).  The
scan input pairs each configured namespace with the result of its
`list_namespaced_pod` call; a raised `ApiException` (`.error`) is caught,
counted and the namespace skipped, and a namespace with no unhealthy
records is not added to the result dictionary. -/
def get_unhealthy_pods (thr : Nat)
    (scan : List (String × Except String (List ScanPod))) :
    List (String × List HealRecord) :=
  scan.filterMap (fun nsres =>
    match nsres.2 with
    | .error _ => none
    | .ok pods =>
        let unhealthy := (pods.map (podUnhealthyRecords thr nsres.1)).flatten
        if unhealthy.isEmpty then none else some (nsres.1, unhealthy))

/-- The flattened, ordered list of records the healing cycle iterates
over (main.py lines 159-168): one `heal_deployment` call is made per
record. -/
def cycleAttempts (thr : Nat)
    (scan : List (String × Except String (List ScanPod))) :
    List HealRecord :=
  ((get_unhealthy_pods thr scan).map (fun x => x.2)).flatten

/-- An owner reference: `kind` and `name`. -/
structure OwnerRef where
  kind : String
  name : String
deriving DecidableEq, Repr

/-- The metadata read from a pod or ReplicaSet during ownership
resolution: its (possibly absent) owner-reference list. -/
structure OwnedMeta where
  owner_references : Option (List OwnerRef)
deriving DecidableEq, Repr

/-- The cluster reads and the patch outcome available to one
`heal_deployment` call: the pod read, the ReplicaSet read by name, and
the result the API would give a `patch_namespaced_deployment` call for a
given deployment name and namespace (`.error` models `ApiException`). -/
structure ClusterEnv where
  readPod : Except String OwnedMeta
  readRS : String → Except String OwnedMeta
  patchResult : String → String → Except String Unit

/-- Observable effects of one `heal_deployment` call: every mutating
patch call issued (with its deployment-name/namespace target), the
labelled `HEAL_ACTIONS` counter increments for the `dry_run_restart`
and `restart` types, and the `HEAL_ERRORS` increments for
`patch_failed` and `api_error`. -/
structure HealEffects where
  patch_calls : List (String × String)
  dry_run_actions : List (String × String)
  restart_actions : List (String × String)
  patch_failed_errors : Nat
  api_errors : Nat
deriving DecidableEq, Repr

/-- No patch calls, no counter increments. -/
def noEffects : HealEffects := ⟨[], [], [], 0, 0⟩

/-- The inner loop over a ReplicaSet's owner references (main.py lines
105-106): the first owner of kind `Deployment` wins. -/
def firstDeploymentOwner : List OwnerRef → Option String
  | [] => none
  | o :: rest =>
      if o.kind == "Deployment" then some o.name
      else firstDeploymentOwner rest

/-- The outer loop over the pod's owner references (main.py lines
97-106): for each owner of kind `ReplicaSet`, read it (a raised
`ApiException` propagates to the enclosing handler); if its
owner-reference list is truthy and holds a `Deployment` owner, resolution
stops with that deployment's name, otherwise the loop continues.
`.ok none` models falling through the loop with no deployment found. -/
def findDeploymentFromOwners (readRS : String → Except String OwnedMeta) :
    List OwnerRef → Except String (Option String)
  | [] => .ok none
  | o :: rest =>
      if o.kind == "ReplicaSet" then
        match readRS o.name with
        | .error e => .error e
        | .ok rs =>
            if pyTruthyList rs.owner_references then
              match firstDeploymentOwner (rs.owner_references.getD []) with
              | some d => .ok (some d)
              | none => findDeploymentFromOwners readRS rest
            else findDeploymentFromOwners readRS rest
      else findDeploymentFromOwners readRS rest

/-- `DeploymentPatcher.restart_deployment` (healer.py lines 105-135):
the patch call is issued and its `ApiException` is caught and converted
to `False`. -/
def restart_deployment (patchResult : Except String Unit) : Bool :=
  match patchResult with
  | .ok _ => true
  | .error _ => false

/-- `AutoHealerService.heal_deployment` (main.py lines 85-140), returning
the boolean result together with its observable effects.  A falsy
owner-reference list is the no-owner skip (line 93-95); falling through
the owner loops is the no-deployment-found skip (line 134-135); the
dry-run gate (line 111-118) is evaluated before the patch call; a patch
failure increments `patch_failed`; a raised `ApiException` from any read
is caught at line 137-140 and counted as `api_error`. -/
def heal_deployment (env : ClusterEnv) (pod_info : HealRecord)
    (dry_run : Bool) : Bool × HealEffects :=
  match env.readPod with
  | .error _ => (false, { noEffects with api_errors := 1 })
  | .ok pod =>
      if !pyTruthyList pod.owner_references then (false, noEffects)
      else
        match findDeploymentFromOwners env.readRS
            (pod.owner_references.getD []) with
        | .error _ => (false, { noEffects with api_errors := 1 })
        | .ok none => (false, noEffects)
        | .ok (some d) =>
            if dry_run then
              (true, { noEffects with dry_run_actions := [(d, pod_info.ns)] })
            else
              if restart_deployment (env.patchResult d pod_info.ns) then
                (true, { noEffects with
                  patch_calls := [(d, pod_info.ns)],
                  restart_actions := [(d, pod_info.ns)] })
              else
                (false, { noEffects with
                  patch_calls := [(d, pod_info.ns)],
                  patch_failed_errors := 1 })

/-- The remediation loop of `run_healing_cycle` (main.py lines 158-168):
every record is processed in order; `healed_count` is incremented on a
`True` result; a `False` result never stops the loop.  Returns the final
healed count and the processing trace (record, result) in order. -/
def runRecordsLoop (healResult : HealRecord → Bool) :
    List HealRecord → Nat × List (HealRecord × Bool)
  | [] => (0, [])
  | r :: rest =>
      let b := healResult r
      let t := runRecordsLoop healResult rest
      (if b then t.1 + 1 else t.1, (r, b) :: t.2)

/-! ## Namespace health summary (healer.py, NamespaceHealthChecker) -/

/-- The part of a pod read by `get_namespace_health_summary`. -/
structure NsPodView where
  phase : String
  container_statuses : Option (List ContainerStatus)
deriving DecidableEq, Repr

/-- The `pods` sub-dictionary of the summary. -/
structure PodCounts where
  total : Nat
  running : Nat
  pending : Nat
  failed : Nat
  unhealthy : Nat
deriving DecidableEq, Repr

/-- The per-pod unhealthy check of the summary (healer.py lines 221-225):
the container loop runs only over a truthy status list, increments the
`unhealthy` counter on the first container with `restart_count >= 3`
(the fixed internal threshold) and then breaks. -/
def podFlaggedUnhealthy (pod : NsPodView) : Bool :=
  pyTruthyList pod.container_statuses &&
    (pod.container_statuses.getD []).any (fun c => 3 ≤ c.restart_count)

/-- The body of the pod loop of `get_namespace_health_summary`
(healer.py lines 211-225): increment `total`, then exactly one of the
`Running`/`Pending`/`Failed` counters via the if/elif chain (any other
phase increments none of them), then `unhealthy` on the break-guarded
container scan. -/
def nsPodStep (s : PodCounts) (pod : NsPodView) : PodCounts :=
  let s1 : PodCounts := { s with total := s.total + 1 }
  let s2 : PodCounts :=
    if pod.phase == "Running" then { s1 with running := s1.running + 1 }
    else if pod.phase == "Pending" then { s1 with pending := s1.pending + 1 }
    else if pod.phase == "Failed" then { s1 with failed := s1.failed + 1 }
    else s1
  if podFlaggedUnhealthy pod then { s2 with unhealthy := s2.unhealthy + 1 }
  else s2

/-- The full pod loop, starting from the all-zero dictionary of
healer.py line 205. -/
def summarizePods (pods : List NsPodView) : PodCounts :=
  pods.foldl nsPodStep ⟨0, 0, 0, 0, 0⟩

/-- The deployment fields read by the summary: `spec.replicas` and
`status.ready_replicas`, either of which may be absent. -/
structure DeploymentView where
  spec_replicas : Option Nat
  ready_replicas : Option Nat
deriving DecidableEq, Repr

/-- The readiness test of healer.py lines 231-233:
`deployment.status.ready_replicas and ready_replicas == spec.replicas`
— the Python conjunction first requires `ready_replicas` to be truthy
(present and nonzero). -/
def deploymentCountedReady (d : DeploymentView) : Bool :=
  pyTruthyOptNat d.ready_replicas &&
    (d.ready_replicas == d.spec_replicas)

/-- The deployment loop of `get_namespace_health_summary` (healer.py
lines 227-233): count every deployment, and count it ready when the
readiness test passes.  Returns (total, ready). -/
def summarizeDeployments (ds : List DeploymentView) : Nat × Nat :=
  ds.foldl
    (fun t d => (t.1 + 1, if deploymentCountedReady d then t.2 + 1 else t.2))
    (0, 0)

/-- The whole summary dictionary (pods part and deployments part). -/
structure NsSummary where
  pods : PodCounts
  dep_total : Nat
  dep_ready : Nat
deriving DecidableEq, Repr

/-- `NamespaceHealthChecker.get_namespace_health_summary` (healer.py
lines 200-243): the pod listing and the deployment listing are the two
API calls; a raised `ApiException` from either is caught and yields the
error-tagged summary (modelled as `.error`). -/
def get_namespace_health_summary
    (listPods : Except String (List NsPodView))
    (listDeps : Except String (List DeploymentView)) :
    Except String NsSummary :=
  match listPods with
  | .error e => .error e
  | .ok pods =>
      match listDeps with
      | .error e => .error e
      | .ok ds =>
          let dp := summarizeDeployments ds
          .ok ⟨summarizePods pods, dp.1, dp.2⟩

/-- The phase classification implicit in the if/elif chain of healer.py
lines 214-219: exactly one bucket per pod, `other` when the phase is
none of `Running`/`Pending`/`Failed`. -/
inductive PhaseBucket where
  | running
  | pending
  | failed
  | other
deriving DecidableEq, Repr

/-- Classify a phase string into its bucket. -/
def classifyPhase (phase : String) : PhaseBucket :=
  if phase == "Running" then .running
  else if phase == "Pending" then .pending
  else if phase == "Failed" then .failed
  else .other

/-! ## Helper lemmas -/

theorem get_pod_restart_count_some (pod : PodStatusView)
    (cs : List ContainerStatus) (h : pod.container_statuses = some cs) :
    get_pod_restart_count (.ok pod) =
      (cs.map (fun c => c.restart_count)).foldl max 0 := by
  simp only [get_pod_restart_count, h, pyTruthyList, Option.getD_some]
  cases cs with
  | nil => simp
  | cons c cs' =>
      simp only [List.isEmpty_cons, Bool.not_false, if_true]
      exact maxRestartsLoop_eq_foldl_max (c :: cs')

theorem get_pod_restart_count_falsy (pod : PodStatusView)
    (h : pyTruthyList pod.container_statuses = false) :
    get_pod_restart_count (.ok pod) = 0 := by
  simp [get_pod_restart_count, h]

theorem length_filterMap_ite {α β : Type} (p : α → Prop) [DecidablePred p]
    (g : α → β) (l : List α) :
    (l.filterMap (fun a => if p a then some (g a) else none)).length =
      (l.filter (fun a => decide (p a))).length := by
  induction l with
  | nil => rfl
  | cons a l ih =>
      by_cases h : p a
      · simp [h, ih]
      · simp [h, ih]

/-! ## Claims C1-C3 -/

/-- A single scanned pod with two containers that both meet the restart
threshold 3. -/
def scanPodTwoBad : ScanPod :=
  ⟨"pod-1", some [⟨"c1", false, 3, "img", none⟩, ⟨"c2", false, 4, "img", none⟩]⟩

/-- Claim C1 counterexample: in a cycle scanning one namespace holding a
single pod whose two containers each meet the restart threshold, the
orchestrator's attempt list holds two records — two `heal_deployment`
calls — for that one pod, so the pod is remediated twice, not at most
once, in the cycle. -/
theorem two_attempts_for_one_pod_in_one_cycle :
    cycleAttempts 3 [("portal", .ok [scanPodTwoBad])] =
      [⟨"pod-1", "portal", 3, "c1", "img", false, none⟩,
       ⟨"pod-1", "portal", 4, "c2", "img", false, none⟩] := rfl

/-- Claim C1 (amended): the orchestrator makes exactly one remediation
attempt per unhealthy-pod record, and the scan emits one record per
container meeting the restart threshold — so a pod in which several
containers each meet the threshold is remediated once per qualifying
container in that cycle, not at most once per pod. -/
theorem one_attempt_per_qualifying_container (thr : Nat) (ns : String)
    (pod : ScanPod) (cs : List ContainerStatus)
    (h : pod.container_statuses = some cs) :
    cycleAttempts thr [(ns, .ok [pod])] = podUnhealthyRecords thr ns pod ∧
      (podUnhealthyRecords thr ns pod).length =
        (cs.filter (fun c => decide (thr ≤ c.restart_count))).length ∧
      ∀ r ∈ podUnhealthyRecords thr ns pod, r.name = pod.name := by
  have heq : podUnhealthyRecords thr ns pod =
      cs.filterMap (fun c =>
        if thr ≤ c.restart_count then
          some (⟨pod.name, ns, c.restart_count, c.name, c.image, c.ready,
            c.last_termination_time⟩ : HealRecord)
        else none) := by
    unfold podUnhealthyRecords
    rw [h]
    cases cs with
    | nil => simp [pyTruthyList]
    | cons c cs' => simp [pyTruthyList]
  refine ⟨?_, ?_, ?_⟩
  · by_cases he : (podUnhealthyRecords thr ns pod).isEmpty
    · have he' : podUnhealthyRecords thr ns pod = [] := by
        simpa [List.isEmpty_iff] using he
      simp [cycleAttempts, get_unhealthy_pods, List.filterMap_cons, he']
    · have he' : ¬podUnhealthyRecords thr ns pod = [] := by
        simpa [List.isEmpty_iff] using he
      simp [cycleAttempts, get_unhealthy_pods, List.filterMap_cons, he']
  · rw [heq]
    exact length_filterMap_ite
      (fun c : ContainerStatus => thr ≤ c.restart_count) _ _
  · intro r hr
    rw [heq, List.mem_filterMap] at hr
    obtain ⟨c, _, hc⟩ := hr
    by_cases hc' : thr ≤ c.restart_count
    · rw [if_pos hc'] at hc
      cases hc
      rfl
    · rw [if_neg hc'] at hc
      cases hc

theorem one_attempt_per_qualifying_container_witness :
    scanPodTwoBad.container_statuses =
      some [⟨"c1", false, 3, "img", none⟩, ⟨"c2", false, 4, "img", none⟩] ∧
      (cycleAttempts 3 [("portal", .ok [scanPodTwoBad])] =
          podUnhealthyRecords 3 "portal" scanPodTwoBad ∧
        (podUnhealthyRecords 3 "portal" scanPodTwoBad).length =
          (([⟨"c1", false, 3, "img", none⟩,
             ⟨"c2", false, 4, "img", none⟩] : List ContainerStatus).filter
            (fun c => decide (3 ≤ c.restart_count))).length ∧
        ∀ r ∈ podUnhealthyRecords 3 "portal" scanPodTwoBad,
          r.name = scanPodTwoBad.name) :=
  ⟨rfl, one_attempt_per_qualifying_container 3 "portal" scanPodTwoBad
    [⟨"c1", false, 3, "img", none⟩, ⟨"c2", false, 4, "img", none⟩] rfl⟩

/-- Claim C2: `get_pod_restart_count` returns the maximum restart count
over the pod's container statuses — an upper bound that is itself one of
the counts (or 0), never their sum — and returns 0 when the
container-status list is absent or the pod read raises. -/
theorem restart_count_is_max_never_sum (e : String)
    (pod pod0 : PodStatusView) (cs : List ContainerStatus)
    (h : pod.container_statuses = some cs)
    (h0 : pod0.container_statuses = none) :
    get_pod_restart_count (.ok pod) =
        (cs.map (fun c => c.restart_count)).foldl max 0 ∧
      (∀ c ∈ cs, c.restart_count ≤ get_pod_restart_count (.ok pod)) ∧
      (get_pod_restart_count (.ok pod) = 0 ∨
        ∃ c ∈ cs, get_pod_restart_count (.ok pod) = c.restart_count) ∧
      get_pod_restart_count (.ok pod0) = 0 ∧
      get_pod_restart_count (.error e) = 0 := by
  have hmax := get_pod_restart_count_some pod cs h
  obtain ⟨hub, hmem⟩ := foldl_max_is_max (cs.map (fun c => c.restart_count))
  refine ⟨hmax, ?_, ?_, ?_, rfl⟩
  · intro c hc
    rw [hmax]
    exact hub c.restart_count (List.mem_map_of_mem _ hc)
  · rcases hmem with hz | hm
    · left; rw [hmax]; exact hz
    · right
      rw [hmax]
      obtain ⟨c, hc, hceq⟩ := List.mem_map.mp hm
      exact ⟨c, hc, hceq.symm⟩
  · exact get_pod_restart_count_falsy pod0 (by rw [h0]; rfl)

theorem restart_count_is_max_never_sum_witness :
    (⟨some [⟨"app", true, 2, "img", none⟩, ⟨"sidecar", false, 7, "img", none⟩]⟩ :
        PodStatusView).container_statuses =
      some [⟨"app", true, 2, "img", none⟩, ⟨"sidecar", false, 7, "img", none⟩] ∧
    (⟨none⟩ : PodStatusView).container_statuses = none ∧
    (get_pod_restart_count
        (.ok ⟨some [⟨"app", true, 2, "img", none⟩,
          ⟨"sidecar", false, 7, "img", none⟩]⟩) =
      (([⟨"app", true, 2, "img", none⟩,
         ⟨"sidecar", false, 7, "img", none⟩] : List ContainerStatus).map
          (fun c => c.restart_count)).foldl max 0 ∧
      (∀ c ∈ ([⟨"app", true, 2, "img", none⟩,
          ⟨"sidecar", false, 7, "img", none⟩] : List ContainerStatus),
        c.restart_count ≤ get_pod_restart_count
          (.ok ⟨some [⟨"app", true, 2, "img", none⟩,
            ⟨"sidecar", false, 7, "img", none⟩]⟩)) ∧
      (get_pod_restart_count (.ok ⟨some [⟨"app", true, 2, "img", none⟩,
          ⟨"sidecar", false, 7, "img", none⟩]⟩) = 0 ∨
        ∃ c ∈ ([⟨"app", true, 2, "img", none⟩,
            ⟨"sidecar", false, 7, "img", none⟩] : List ContainerStatus),
          get_pod_restart_count (.ok ⟨some [⟨"app", true, 2, "img", none⟩,
            ⟨"sidecar", false, 7, "img", none⟩]⟩) = c.restart_count) ∧
      get_pod_restart_count (.ok (⟨none⟩ : PodStatusView)) = 0 ∧
      get_pod_restart_count (.error "boom") = 0) :=
  ⟨rfl, rfl, restart_count_is_max_never_sum "boom" _ ⟨none⟩ _ rfl rfl⟩

/-- Claim C3 counterexample: with restart threshold 0, a pod with no
container-status entries has restart count 0 and yet is classified
unhealthy, because `is_pod_unhealthy` tests `restart_count >= threshold`
and `0 >= 0` holds — refuting "isUnhealthy is false for every
non-negative threshold including 0". -/
theorem no_statuses_pod_unhealthy_at_threshold_zero :
    get_pod_restart_count (.ok (⟨none⟩ : PodStatusView)) = 0 ∧
      is_pod_unhealthy (.ok (⟨none⟩ : PodStatusView)) 0 = true :=
  ⟨rfl, rfl⟩

/-- Claim C3 (amended): for every pod with no container-status entries
(absent or empty list) the restart count is 0, and the pod is classified
healthy for every threshold of at least 1; at threshold 0 the comparison
`0 >= 0` classifies every such pod unhealthy. -/
theorem no_statuses_healthy_above_zero_threshold (pod : PodStatusView)
    (thr : Nat) (hpod : pyTruthyList pod.container_statuses = false)
    (hthr : 1 ≤ thr) :
    get_pod_restart_count (.ok pod) = 0 ∧
      is_pod_unhealthy (.ok pod) thr = false ∧
      is_pod_unhealthy (.ok pod) 0 = true := by
  have h0 := get_pod_restart_count_falsy pod hpod
  refine ⟨h0, ?_, ?_⟩
  · simp [is_pod_unhealthy, h0]
    omega
  · simp [is_pod_unhealthy, h0]

theorem no_statuses_healthy_above_zero_threshold_witness :
    pyTruthyList (⟨some []⟩ : PodStatusView).container_statuses = false ∧
      1 ≤ 3 ∧
      (get_pod_restart_count (.ok (⟨some []⟩ : PodStatusView)) = 0 ∧
        is_pod_unhealthy (.ok (⟨some []⟩ : PodStatusView)) 3 = false ∧
        is_pod_unhealthy (.ok (⟨some []⟩ : PodStatusView)) 0 = true) :=
  ⟨rfl, by omega,
    no_statuses_healthy_above_zero_threshold ⟨some []⟩ 3 rfl (by omega)⟩

/-! ## Claims C4, C7, C8, C9: heal_deployment and the cycle loop -/

/-- An environment whose pod is owned by ReplicaSet `rs-1`, itself owned
by Deployment `app-1`, with a succeeding patch endpoint. -/
def envResolved : ClusterEnv :=
  ⟨.ok ⟨some [⟨"ReplicaSet", "rs-1"⟩]⟩,
   fun _ => .ok ⟨some [⟨"Deployment", "app-1"⟩]⟩,
   fun _ _ => .ok ()⟩

/-- A sample unhealthy record in namespace `portal`. -/
def sampleRecord : HealRecord := ⟨"pod-1", "portal", 3, "c1", "img", false, none⟩

/-- Claim C4: when the owning deployment is resolved and dryRun is true,
`heal_deployment` returns success, increments the dry-run outcome
counter once, and issues zero mutating patch calls; moreover under
dryRun = true no execution path of `heal_deployment` issues a patch call
at all (the gate precedes the patch). -/
theorem dry_run_success_without_mutation (env : ClusterEnv)
    (pod_info : HealRecord) (pod : OwnedMeta) (d : String)
    (h1 : env.readPod = .ok pod)
    (h2 : pyTruthyList pod.owner_references = true)
    (h3 : findDeploymentFromOwners env.readRS
      (pod.owner_references.getD []) = .ok (some d)) :
    heal_deployment env pod_info true =
      (true, { noEffects with dry_run_actions := [(d, pod_info.ns)] }) ∧
    ∀ (env2 : ClusterEnv) (rec2 : HealRecord),
      (heal_deployment env2 rec2 true).2.patch_calls = [] := by
  constructor
  · unfold heal_deployment
    rw [h1]
    simp [h2, h3]
  · intro env2 rec2
    unfold heal_deployment
    cases env2.readPod with
    | error e => simp [noEffects]
    | ok pod2 =>
        by_cases ho : pyTruthyList pod2.owner_references
        · simp only [ho, Bool.not_true, Bool.false_eq_true, if_false]
          cases findDeploymentFromOwners env2.readRS
              (pod2.owner_references.getD []) with
          | error e => simp [noEffects]
          | ok od => cases od <;> simp [noEffects]
        · simp only [Bool.not_eq_true] at ho
          simp [ho, noEffects]

theorem dry_run_success_without_mutation_witness :
    envResolved.readPod = .ok ⟨some [⟨"ReplicaSet", "rs-1"⟩]⟩ ∧
      pyTruthyList (⟨some [⟨"ReplicaSet", "rs-1"⟩]⟩ : OwnedMeta).owner_references
        = true ∧
      findDeploymentFromOwners envResolved.readRS
        ((⟨some [⟨"ReplicaSet", "rs-1"⟩]⟩ : OwnedMeta).owner_references.getD [])
        = .ok (some "app-1") ∧
      heal_deployment envResolved sampleRecord true =
        (true, { noEffects with dry_run_actions := [("app-1", "portal")] }) :=
  ⟨rfl, rfl, rfl,
    (dry_run_success_without_mutation envResolved sampleRecord
      ⟨some [⟨"ReplicaSet", "rs-1"⟩]⟩ "app-1" rfl rfl rfl).1⟩

/-- An environment whose pod has no owner references. -/
def envNoOwner : ClusterEnv :=
  ⟨.ok ⟨none⟩, fun _ => .error "unused", fun _ _ => .error "unused"⟩

/-- An environment whose pod is owned by a ReplicaSet whose own owners
hold no Deployment. -/
def envNoDeploymentFound : ClusterEnv :=
  ⟨.ok ⟨some [⟨"ReplicaSet", "rs-1"⟩]⟩,
   fun _ => .ok ⟨some [⟨"Node", "node-1"⟩]⟩,
   fun _ _ => .error "unused"⟩

/-- Claim C7 counterexample: a pod with no owner references and a pod
whose ReplicaSet owners lead to no Deployment produce the very same
returned value — plain `False` with no counter increments and no
mutating calls — so the two skip outcomes are NOT distinguishable in the
returned value; there is no tagged Skip-reason result. -/
theorem skip_outcomes_share_one_returned_value :
    heal_deployment envNoOwner sampleRecord false =
        heal_deployment envNoDeploymentFound sampleRecord false ∧
      heal_deployment envNoOwner sampleRecord false = (false, noEffects) :=
  ⟨rfl, rfl⟩

/-- Claim C7 (amended): resolution failures are reported through a plain
boolean, not a tagged result: a pod with no owner references returns
`False` with zero mutating calls and zero counter increments, and a pod
whose ReplicaSet owners lead to no Deployment returns the identical
value; the two skip reasons are distinguished only in log output. -/
theorem skip_cases_return_false_without_mutation (env env2 : ClusterEnv)
    (rec1 rec2 : HealRecord) (pod pod2 : OwnedMeta) (dr : Bool)
    (h1 : env.readPod = .ok pod)
    (h2 : pyTruthyList pod.owner_references = false)
    (h3 : env2.readPod = .ok pod2)
    (h4 : pyTruthyList pod2.owner_references = true)
    (h5 : findDeploymentFromOwners env2.readRS
      (pod2.owner_references.getD []) = .ok none) :
    heal_deployment env rec1 dr = (false, noEffects) ∧
      heal_deployment env2 rec2 dr = (false, noEffects) := by
  constructor
  · unfold heal_deployment
    rw [h1]
    simp [h2]
  · unfold heal_deployment
    rw [h3]
    simp [h4, h5]

theorem skip_cases_return_false_without_mutation_witness :
    envNoOwner.readPod = .ok ⟨none⟩ ∧
      pyTruthyList (⟨none⟩ : OwnedMeta).owner_references = false ∧
      envNoDeploymentFound.readPod = .ok ⟨some [⟨"ReplicaSet", "rs-1"⟩]⟩ ∧
      pyTruthyList (⟨some [⟨"ReplicaSet", "rs-1"⟩]⟩ : OwnedMeta).owner_references
        = true ∧
      findDeploymentFromOwners envNoDeploymentFound.readRS
        ((⟨some [⟨"ReplicaSet", "rs-1"⟩]⟩ : OwnedMeta).owner_references.getD [])
        = .ok none ∧
      (heal_deployment envNoOwner sampleRecord true = (false, noEffects) ∧
        heal_deployment envNoDeploymentFound sampleRecord true =
          (false, noEffects)) :=
  ⟨rfl, rfl, rfl, rfl, rfl,
    skip_cases_return_false_without_mutation envNoOwner envNoDeploymentFound
      sampleRecord sampleRecord ⟨none⟩ ⟨some [⟨"ReplicaSet", "rs-1"⟩]⟩ true
      rfl rfl rfl rfl rfl⟩

/-- Claim C8: for a pod whose first owner reference is a ReplicaSet that
is itself owned by a Deployment, two-hop resolution returns that
ReplicaSet's first Deployment-kind owner — regardless of any further pod
owner references — and the remediation patch targets that deployment
name in the pod's own namespace. -/
theorem two_hop_resolution_first_deployment (env : ClusterEnv)
    (rec1 : HealRecord) (pod rs : OwnedMeta) (rsName d : String)
    (rest rsOwners : List OwnerRef)
    (hpod : env.readPod = .ok pod)
    (howners : pod.owner_references = some (⟨"ReplicaSet", rsName⟩ :: rest))
    (hrs : env.readRS rsName = .ok rs)
    (hrsOwners : rs.owner_references = some rsOwners)
    (hfirst : firstDeploymentOwner rsOwners = some d)
    (hpatch : env.patchResult d rec1.ns = .ok ()) :
    findDeploymentFromOwners env.readRS (pod.owner_references.getD []) =
        .ok (some d) ∧
      heal_deployment env rec1 false =
        (true, { noEffects with
          patch_calls := [(d, rec1.ns)],
          restart_actions := [(d, rec1.ns)] }) := by
  have hnonempty : rsOwners.isEmpty = false := by
    cases rsOwners with
    | nil => cases hfirst
    | cons o rest' => rfl
  have hres : findDeploymentFromOwners env.readRS
      ((⟨"ReplicaSet", rsName⟩ : OwnerRef) :: rest) = .ok (some d) := by
    unfold findDeploymentFromOwners
    rw [hrs]
    simp [pyTruthyList, hrsOwners, hnonempty, hfirst]
  constructor
  · rw [howners]
    exact hres
  · unfold heal_deployment
    rw [hpod]
    simp [howners, pyTruthyList, hres, hpatch, restart_deployment]

theorem two_hop_resolution_first_deployment_witness :
    envResolved.readPod = .ok ⟨some [⟨"ReplicaSet", "rs-1"⟩]⟩ ∧
      (⟨some [⟨"ReplicaSet", "rs-1"⟩]⟩ : OwnedMeta).owner_references =
        some [⟨"ReplicaSet", "rs-1"⟩] ∧
      envResolved.readRS "rs-1" = .ok ⟨some [⟨"Deployment", "app-1"⟩]⟩ ∧
      (⟨some [⟨"Deployment", "app-1"⟩]⟩ : OwnedMeta).owner_references =
        some [⟨"Deployment", "app-1"⟩] ∧
      firstDeploymentOwner [⟨"Deployment", "app-1"⟩] = some "app-1" ∧
      envResolved.patchResult "app-1" sampleRecord.ns = .ok () ∧
      (findDeploymentFromOwners envResolved.readRS
          ((⟨some [⟨"ReplicaSet", "rs-1"⟩]⟩ : OwnedMeta).owner_references.getD [])
          = .ok (some "app-1") ∧
        heal_deployment envResolved sampleRecord false =
          (true, { noEffects with
            patch_calls := [("app-1", "portal")],
            restart_actions := [("app-1", "portal")] })) :=
  ⟨rfl, rfl, rfl, rfl, rfl, rfl,
    two_hop_resolution_first_deployment envResolved sampleRecord
      ⟨some [⟨"ReplicaSet", "rs-1"⟩]⟩ ⟨some [⟨"Deployment", "app-1"⟩]⟩
      "rs-1" "app-1" [] [⟨"Deployment", "app-1"⟩] rfl rfl rfl rfl rfl rfl⟩

theorem runRecordsLoop_processes_all (healResult : HealRecord → Bool)
    (records : List HealRecord) :
    (runRecordsLoop healResult records).2.map (fun x => x.1) = records ∧
      (runRecordsLoop healResult records).1 = records.countP healResult := by
  induction records with
  | nil => exact ⟨rfl, rfl⟩
  | cons r rest ih =>
      obtain ⟨ih1, ih2⟩ := ih
      constructor
      · simp [runRecordsLoop, ih1]
      · simp only [runRecordsLoop, List.countP_cons, ih2]
        by_cases hb : healResult r
        · simp [hb]
        · simp [hb]

/-- An environment whose pod read raises an `ApiException`. -/
def envApiError : ClusterEnv :=
  ⟨.error "boom", fun _ => .error "boom", fun _ _ => .error "boom"⟩

/-- An environment that resolves Deployment `app-1` but whose patch
endpoint rejects the mutation. -/
def envPatchRejected : ClusterEnv :=
  ⟨.ok ⟨some [⟨"ReplicaSet", "rs-1"⟩]⟩,
   fun _ => .ok ⟨some [⟨"Deployment", "app-1"⟩]⟩,
   fun _ _ => .error "conflict"⟩

/-- A batch of five unhealthy records, as in the spec's five-pod
example. -/
def demoBatch : List HealRecord :=
  [⟨"pod-1", "portal", 3, "c", "img", false, none⟩,
   ⟨"pod-2", "portal", 4, "c", "img", false, none⟩,
   ⟨"pod-3", "portal", 5, "c", "img", false, none⟩,
   ⟨"pod-4", "portal", 6, "c", "img", false, none⟩,
   ⟨"pod-5", "portal", 7, "c", "img", false, none⟩]

/-- A remediation outcome in which pod #3 fails and every other pod
succeeds. -/
def demoHealOutcome (r : HealRecord) : Bool := !(r.name == "pod-3")

/-- Claim C9: the cycle loop processes every record of the batch in
order no matter what each per-record remediation returns (the healed
count being the number of successes), and a per-pod failure is never
raised to the loop: an `ApiException` during remediation is caught and
converted to `False` with one `api_error` counter increment, and a
rejected patch is converted to `False` with one `patch_failed` counter
increment after its single patch call. -/
theorem cycle_isolates_per_pod_failures
    (healResult : HealRecord → Bool) (records : List HealRecord)
    (env : ClusterEnv) (r r2 : HealRecord) (e e2 : String) (dr : Bool)
    (h : env.readPod = .error e)
    (env2 : ClusterEnv) (pod2 : OwnedMeta) (d : String)
    (h1 : env2.readPod = .ok pod2)
    (h2 : pyTruthyList pod2.owner_references = true)
    (h3 : findDeploymentFromOwners env2.readRS
      (pod2.owner_references.getD []) = .ok (some d))
    (h4 : env2.patchResult d r2.ns = .error e2) :
    (runRecordsLoop healResult records).2.map (fun x => x.1) = records ∧
      (runRecordsLoop healResult records).1 = records.countP healResult ∧
      heal_deployment env r dr = (false, { noEffects with api_errors := 1 }) ∧
      heal_deployment env2 r2 false =
        (false, { noEffects with
          patch_calls := [(d, r2.ns)],
          patch_failed_errors := 1 }) := by
  obtain ⟨hp1, hp2⟩ := runRecordsLoop_processes_all healResult records
  refine ⟨hp1, hp2, ?_, ?_⟩
  · unfold heal_deployment
    rw [h]
  · unfold heal_deployment
    rw [h1]
    simp [h2, h3, h4, restart_deployment]

theorem cycle_isolates_per_pod_failures_witness :
    envApiError.readPod = .error "boom" ∧
      envPatchRejected.readPod = .ok ⟨some [⟨"ReplicaSet", "rs-1"⟩]⟩ ∧
      pyTruthyList (⟨some [⟨"ReplicaSet", "rs-1"⟩]⟩ : OwnedMeta).owner_references
        = true ∧
      findDeploymentFromOwners envPatchRejected.readRS
        ((⟨some [⟨"ReplicaSet", "rs-1"⟩]⟩ : OwnedMeta).owner_references.getD [])
        = .ok (some "app-1") ∧
      envPatchRejected.patchResult "app-1" sampleRecord.ns = .error "conflict" ∧
      ((runRecordsLoop demoHealOutcome demoBatch).2.map (fun x => x.1) =
          demoBatch ∧
        (runRecordsLoop demoHealOutcome demoBatch).1 =
          demoBatch.countP demoHealOutcome ∧
        heal_deployment envApiError sampleRecord false =
          (false, { noEffects with api_errors := 1 }) ∧
        heal_deployment envPatchRejected sampleRecord false =
          (false, { noEffects with
            patch_calls := [("app-1", "portal")],
            patch_failed_errors := 1 })) :=
  ⟨rfl, rfl, rfl, rfl, rfl,
    cycle_isolates_per_pod_failures demoHealOutcome demoBatch envApiError
      sampleRecord sampleRecord "boom" "conflict" false rfl envPatchRejected
      ⟨some [⟨"ReplicaSet", "rs-1"⟩]⟩ "app-1" rfl rfl rfl rfl⟩

/-! ## Claims C5, C6, C10: namespace health summary -/

theorem nsPodStep_fields (s : PodCounts) (p : NsPodView) :
    (nsPodStep s p).total = s.total + 1 ∧
      (nsPodStep s p).running =
        s.running + (if classifyPhase p.phase = .running then 1 else 0) ∧
      (nsPodStep s p).pending =
        s.pending + (if classifyPhase p.phase = .pending then 1 else 0) ∧
      (nsPodStep s p).failed =
        s.failed + (if classifyPhase p.phase = .failed then 1 else 0) ∧
      (nsPodStep s p).unhealthy =
        s.unhealthy + (if podFlaggedUnhealthy p then 1 else 0) := by
  unfold nsPodStep classifyPhase
  by_cases h1 : p.phase == "Running" <;>
    by_cases h2 : p.phase == "Pending" <;>
      by_cases h3 : p.phase == "Failed" <;>
        by_cases h4 : podFlaggedUnhealthy p <;>
          simp [h1, h2, h3, h4]

theorem summarizePods_fold (pods : List NsPodView) :
    ∀ s : PodCounts,
      (pods.foldl nsPodStep s).total = s.total + pods.length ∧
        (pods.foldl nsPodStep s).running = s.running +
          pods.countP (fun p => decide (classifyPhase p.phase = .running)) ∧
        (pods.foldl nsPodStep s).pending = s.pending +
          pods.countP (fun p => decide (classifyPhase p.phase = .pending)) ∧
        (pods.foldl nsPodStep s).failed = s.failed +
          pods.countP (fun p => decide (classifyPhase p.phase = .failed)) ∧
        (pods.foldl nsPodStep s).unhealthy = s.unhealthy +
          pods.countP podFlaggedUnhealthy := by
  induction pods with
  | nil => intro s; simp
  | cons p pods ih =>
      intro s
      obtain ⟨i1, i2, i3, i4, i5⟩ := ih (nsPodStep s p)
      obtain ⟨f1, f2, f3, f4, f5⟩ := nsPodStep_fields s p
      refine ⟨?_, ?_, ?_, ?_, ?_⟩
      · rw [List.foldl_cons, i1, f1, List.length_cons]
        omega
      · rw [List.foldl_cons, i2, f2, List.countP_cons]
        by_cases h : classifyPhase p.phase = .running
        · simp [h]; omega
        · simp [h]
      · rw [List.foldl_cons, i3, f3, List.countP_cons]
        by_cases h : classifyPhase p.phase = .pending
        · simp [h]; omega
        · simp [h]
      · rw [List.foldl_cons, i4, f4, List.countP_cons]
        by_cases h : classifyPhase p.phase = .failed
        · simp [h]; omega
        · simp [h]
      · rw [List.foldl_cons, i5, f5, List.countP_cons]
        by_cases h : podFlaggedUnhealthy p
        · simp [h]; omega
        · simp [h]

theorem classifyPhase_partition (pods : List NsPodView) :
    pods.countP (fun p => decide (classifyPhase p.phase = .running)) +
        pods.countP (fun p => decide (classifyPhase p.phase = .pending)) +
        pods.countP (fun p => decide (classifyPhase p.phase = .failed)) +
        pods.countP (fun p => decide (classifyPhase p.phase = .other)) =
      pods.length := by
  induction pods with
  | nil => rfl
  | cons p pods ih =>
      simp only [List.countP_cons, List.length_cons]
      cases hc : classifyPhase p.phase <;> simp [hc] <;> omega

theorem summarizePods_spec (pods : List NsPodView) :
    (summarizePods pods).total = pods.length ∧
      (summarizePods pods).running =
        pods.countP (fun p => decide (classifyPhase p.phase = .running)) ∧
      (summarizePods pods).pending =
        pods.countP (fun p => decide (classifyPhase p.phase = .pending)) ∧
      (summarizePods pods).failed =
        pods.countP (fun p => decide (classifyPhase p.phase = .failed)) ∧
      (summarizePods pods).unhealthy = pods.countP podFlaggedUnhealthy := by
  have h := summarizePods_fold pods ⟨0, 0, 0, 0, 0⟩
  simpa [summarizePods] using h

/-- Claim C6: the summary's pod loop classifies each pod into exactly one
phase bucket: the `running`, `pending` and `failed` counters count
exactly the pods classified into those buckets, any other phase falls
into the (implicit) `other` bucket, the total counts every pod, and the
four bucket counts sum to the total for every input. -/
theorem phase_buckets_partition_total (pods : List NsPodView) :
    (summarizePods pods).total = pods.length ∧
      (summarizePods pods).running =
        pods.countP (fun p => decide (classifyPhase p.phase = .running)) ∧
      (summarizePods pods).pending =
        pods.countP (fun p => decide (classifyPhase p.phase = .pending)) ∧
      (summarizePods pods).failed =
        pods.countP (fun p => decide (classifyPhase p.phase = .failed)) ∧
      (summarizePods pods).running + (summarizePods pods).pending +
          (summarizePods pods).failed +
          pods.countP (fun p => decide (classifyPhase p.phase = .other)) =
        (summarizePods pods).total := by
  obtain ⟨t, r, pe, f, _⟩ := summarizePods_spec pods
  refine ⟨t, r, pe, f, ?_⟩
  rw [t, r, pe, f]
  exact classifyPhase_partition pods

/-- Claim C10: in the summary, a pod contributes at most 1 to the
unhealthy count even when several of its containers meet the internal
threshold — the per-pod step adds at most one — the unhealthy count is
exactly the number of pods flagged unhealthy, and it never exceeds the
total pod count. -/
theorem unhealthy_at_most_one_per_pod (pods : List NsPodView)
    (s : PodCounts) (p : NsPodView) :
    (summarizePods pods).unhealthy = pods.countP podFlaggedUnhealthy ∧
      (summarizePods pods).unhealthy ≤ (summarizePods pods).total ∧
      (nsPodStep s p).unhealthy ≤ s.unhealthy + 1 := by
  obtain ⟨t, _, _, _, u⟩ := summarizePods_spec pods
  obtain ⟨_, _, _, _, f5⟩ := nsPodStep_fields s p
  refine ⟨u, ?_, ?_⟩
  · rw [u, t]
    exact List.countP_le_length podFlaggedUnhealthy
  · rw [f5]
    by_cases h : podFlaggedUnhealthy p
    · simp [h]
    · simp [h]

theorem summarizeDeployments_spec (ds : List DeploymentView) :
    (summarizeDeployments ds).1 = ds.length ∧
      (summarizeDeployments ds).2 = ds.countP deploymentCountedReady := by
  have key : ∀ (l : List DeploymentView) (a : Nat × Nat),
      (l.foldl (fun t d =>
          (t.1 + 1, if deploymentCountedReady d then t.2 + 1 else t.2)) a).1 =
        a.1 + l.length ∧
      (l.foldl (fun t d =>
          (t.1 + 1, if deploymentCountedReady d then t.2 + 1 else t.2)) a).2 =
        a.2 + l.countP deploymentCountedReady := by
    intro l
    induction l with
    | nil => intro a; simp
    | cons d l ih =>
        intro a
        obtain ⟨i1, i2⟩ :=
          ih (a.1 + 1, if deploymentCountedReady d then a.2 + 1 else a.2)
        refine ⟨?_, ?_⟩
        · rw [List.foldl_cons, i1, List.length_cons]
          omega
        · rw [List.foldl_cons, i2, List.countP_cons]
          by_cases h : deploymentCountedReady d
          · simp [h]; omega
          · simp [h]
  obtain ⟨k1, k2⟩ := key ds (0, 0)
  exact ⟨by rw [summarizeDeployments, k1]; omega,
    by rw [summarizeDeployments, k2]; omega⟩

/-- A deployment with `spec.replicas = 0` whose status reports 0 ready
replicas. -/
def zeroReplicaDeployment : DeploymentView := ⟨some 0, some 0⟩

/-- Claim C5 counterexample: a deployment with `spec.replicas = 0` and
`readyReplicas = 0` has readyReplicas equal to spec.replicas, yet the
summary does NOT count it ready: the Python conjunction
`ready_replicas and ready_replicas == spec.replicas` first tests the
truthiness of `ready_replicas`, and 0 is falsy. -/
theorem zero_replica_deployment_not_counted_ready :
    zeroReplicaDeployment.ready_replicas = zeroReplicaDeployment.spec_replicas ∧
      deploymentCountedReady zeroReplicaDeployment = false ∧
      (summarizeDeployments [zeroReplicaDeployment]).2 = 0 :=
  ⟨rfl, rfl, rfl⟩

/-- Claim C5 (amended): the summary counts a deployment "ready" iff its
readyReplicas is present, nonzero and equal to spec.replicas — so a
deployment with spec.replicas = 0 is never counted ready, its
readyReplicas (0 or absent) being falsy — and the summary's ready total
counts exactly the deployments passing this test. -/
theorem deployment_ready_iff_nonzero_match (ds : List DeploymentView)
    (d : DeploymentView) :
    (deploymentCountedReady d = true ↔
        ∃ n : Nat, 0 < n ∧ d.ready_replicas = some n ∧
          d.spec_replicas = some n) ∧
      (deploymentCountedReady ⟨some 0, some 0⟩ = false ∧
        deploymentCountedReady ⟨some 0, none⟩ = false ∧
        deploymentCountedReady ⟨none, none⟩ = false) ∧
      (summarizeDeployments ds).1 = ds.length ∧
      (summarizeDeployments ds).2 = ds.countP deploymentCountedReady := by
  obtain ⟨s1, s2⟩ := summarizeDeployments_spec ds
  refine ⟨?_, ⟨rfl, rfl, rfl⟩, s1, s2⟩
  unfold deploymentCountedReady pyTruthyOptNat
  rcases hrr : d.ready_replicas with _ | n <;>
    rcases hsr : d.spec_replicas with _ | m
  · simp
  · simp
  · simp
  · simp only [Bool.and_eq_true, decide_eq_true_eq, beq_iff_eq,
      Option.some.injEq]
    constructor
    · rintro ⟨hn, rfl⟩
      exact ⟨n, Nat.pos_of_ne_zero hn, rfl, rfl⟩
    · rintro ⟨k, hk, hk1, hk2⟩
      cases hk1
      cases hk2
      exact ⟨Nat.pos_iff_ne_zero.mp hk, rfl⟩
